import Mathlib

/-!
Shallow embedding of the expenses edge function (Deno/Supabase backend).

The effectful Supabase store is modelled as a pure record of tables
(`Db`); the two failure modes the control flow distinguishes — the
employee lookup erroring and the transactions insert erroring — are
injected through a `Faults` record.  Machine strings and rationals stand
for the JS strings and numbers; JS truthiness on optional fields is
modelled explicitly (`none` = the key is absent / undefined, `some ""` /
`some 0` = present but falsy).
-/

namespace AraratOil

/-- JS truthiness for an optional string: `!x` is true when the key is
absent or the string is empty. -/
def optStrFalsy : Option String → Bool
  | none => true
  | some s => s == ""

/-- JS truthiness for an optional number: `!x` is true when the key is
absent or the number is `0`. -/
def optRatFalsy : Option ℚ → Bool
  | none => true
  | some q => q == 0

/-- The request payload `Omit<Expense, "id" | "created_at">` (for create)
and `Partial<Omit<Expense, "id" | "created_at">>` (for update).  Every
field is optional because a JSON body may omit any key. -/
structure ExpensePayload where
  date : Option String
  amount : Option ℚ
  category : Option String
  description : Option String
  payment_status : Option String
  payment_method : Option String
  invoice_number : Option String
  notes : Option String
  employee_id : Option String
  deriving DecidableEq

/-- A row of the `expenses` table (the `Expense` interface with the
server-assigned `id` and `created_at`). -/
structure StoredExpense where
  id : String
  date : String
  amount : ℚ
  category : String
  description : String
  payment_status : String
  payment_method : Option String
  invoice_number : Option String
  notes : Option String
  employee_id : String
  created_at : String
  deriving DecidableEq

/-- The `ExpenseValidation` interface. -/
structure ExpenseValidation where
  isValid : Bool
  message : Option String
  status : Option Nat
  deriving DecidableEq

/-- The `TransactionData` interface: a row inserted into `transactions`. -/
structure TransactionData where
  amount : ℚ
  payment_method : String
  payment_status : String
  employee_id : String
  entity_id : String
  entity_type : String
  description : String
  updated_at : String
  deriving DecidableEq

/-- The `ExpenseFilters` interface built from the query string. -/
structure ExpenseFilters where
  category : Option String
  startDate : Option String
  endDate : Option String
  paymentStatus : Option String
  deriving DecidableEq

/-- The backing store: the `expenses` and `transactions` tables and the
`employees` table restricted to the two selected columns `(id, name)`. -/
structure Db where
  expenses : List StoredExpense
  employees : List (String × String)
  transactions : List TransactionData
  deriving DecidableEq

/-- Injected failures of the two store calls whose errors the code
handles specially: the employee `select` and the transactions `insert`. -/
structure Faults where
  employeeLookupFails : Bool
  transactionInsertFails : Bool
  deriving DecidableEq

/-- Character class `[0-9a-f]` taken case-insensitively, as in the UUID regex. -/
def isHexDigit (c : Char) : Bool :=
  (Char.ofNat 48 ≤ c && c ≤ Char.ofNat 57) ||
  (Char.ofNat 97 ≤ c && c ≤ Char.ofNat 102) ||
  (Char.ofNat 65 ≤ c && c ≤ Char.ofNat 70)

/-- Consume exactly `n` hex digits from the front of the character list,
returning the remainder; `none` when a non-hex character (or the end of
the input) is hit first.  This is the `[0-9a-f]{n}` piece of the regex. -/
def hexRun : Nat → List Char → Option (List Char)
  | 0, cs => some cs
  | _ + 1, [] => none
  | n + 1, c :: cs => if isHexDigit c then hexRun n cs else none

/-- Expect the separating hyphen of the regex at the front, consuming
it. -/
def expectHyphen : List Char → Option (List Char)
  | c :: cs => if c = Char.ofNat 45 then some cs else none
  | [] => none

/-- The anchored UUID regex
`^[0-9a-f]{8}-[0-9a-f]{4}-[0-9a-f]{4}-[0-9a-f]{4}-[0-9a-f]{12}$/i`
run over a character list: five hex runs separated by hyphens,
consuming the whole input. -/
def uuidChars (cs : List Char) : Bool :=
  ((((((((hexRun 8 cs).bind expectHyphen).bind (hexRun 4)).bind
    expectHyphen).bind (hexRun 4)).bind expectHyphen).bind (hexRun 4)).bind
    expectHyphen).bind (hexRun 12) == some []

/-- Test `uuidRegex.test(s)`. -/
def uuidTest (s : String) : Bool :=
  uuidChars s.data

/-- Function `validateExpense`: the ordered, short-circuiting field checks. -/
def validateExpense (u : ExpensePayload) : ExpenseValidation :=
  if optStrFalsy u.date then
    ⟨false, some "Expense date is required", some 400⟩
  else if optRatFalsy u.amount || u.amount.getD 0 ≤ 0 then
    ⟨false, some "Amount must be a positive number", some 400⟩
  else if optStrFalsy u.category then
    ⟨false, some "Category is required", some 400⟩
  else if optStrFalsy u.description then
    ⟨false, some "Description is required", some 400⟩
  else if optStrFalsy u.employee_id then
    ⟨false, some "Employee ID is required", some 400⟩
  else if !uuidTest (u.employee_id.getD "") then
    ⟨false, some "Invalid employee ID format", some 400⟩
  else
    ⟨true, none, none⟩

/-- The static category list returned by `getExpenseCategories`. -/
def expenseCategoryList : List String :=
  ["utilities", "rent", "salaries", "maintenance", "supplies",
   "taxes", "insurance", "other"]

/-- An expense decorated with its `{id, name}` employee (the
`ExpenseWithRelations` shape; `none` models the JSON `null`). -/
structure DecoratedExpense where
  expense : StoredExpense
  employee : Option (String × String)
  deriving DecidableEq

/-- The JSON envelope together with the HTTP status.  Success payload
shapes are distinguished structurally; `err` carries the `error` string
of the error envelope. -/
inductive ApiResult where
  | okExpense (status : Nat) (e : DecoratedExpense)
  | okDecoratedList (status : Nat) (es : List DecoratedExpense)
  | okBareList (status : Nat) (es : List StoredExpense)
  | okCategories (status : Nat) (cs : List String)
  | okNull (status : Nat)
  | okSummary (status : Nat)
  | corsPreflight
  | err (status : Nat) (message : String)
  deriving DecidableEq

/-- The `employees` point lookup `select("id, name").eq("id", eid).single()`
used by getById / create / update.  `none` models the call erroring
(either through the injected fault or because no row matches); in every
caller that error is thrown. -/
def fetchEmployeeSingle (db : Db) (f : Faults) (eid : String) :
    Option (String × String) :=
  if f.employeeLookupFails then none
  else db.employees.find? (fun e => e.1 == eid)

/-- Lexicographic less-or-equal on character lists. -/
def charListLe : List Char → List Char → Bool
  | [], _ => true
  | _ :: _, [] => false
  | a :: as, b :: bs =>
    if a < b then true else if b < a then false else charListLe as bs

/-- Lexicographic string order; on ISO date strings it coincides with
the date order the store applies. -/
def strLe (a b : String) : Bool :=
  charListLe a.data b.data

/-- The filter chain of `getExpenses`: each filter is applied only when
the corresponding field is truthy, and the applied ones conjoin. -/
def matchesFilters (fl : ExpenseFilters) (e : StoredExpense) : Bool :=
  (optStrFalsy fl.category || e.category == fl.category.getD "") &&
  (optStrFalsy fl.startDate || strLe (fl.startDate.getD "") e.date) &&
  (optStrFalsy fl.endDate || strLe e.date (fl.endDate.getD "")) &&
  (optStrFalsy fl.paymentStatus || e.payment_status == fl.paymentStatus.getD "")

/-- Insert into a list already sorted by `date` descending. -/
def insertDesc (e : StoredExpense) : List StoredExpense → List StoredExpense
  | [] => [e]
  | x :: xs => if strLe x.date e.date then e :: x :: xs else x :: insertDesc e xs

/-- The ordering `order("date", ascending false)`: sort by `date` descending. -/
def sortByDateDesc : List StoredExpense → List StoredExpense
  | [] => []
  | x :: xs => insertDesc x (sortByDateDesc xs)

/-- Spreading `new Set(xs)` into an array: deduplicate keeping first occurrences. -/
def firstDedup (xs : List String) : List String :=
  xs.foldl (fun acc x => if acc.contains x then acc else acc ++ [x]) []

/-- The id set `new Set(expenses.map(e => e.employee_id).filter(Boolean))`. -/
def collectEmployeeIds (l : List StoredExpense) : List String :=
  firstDedup ((l.map (fun e => e.employee_id)).filter (fun s => !(s == "")))

/-- Function `getExpenses`: filter, order by date descending, then decorate each
row with its employee; an erroring batch employee lookup (and likewise
an empty id set) degrades to returning the bare expenses. -/
def getExpenses (db : Db) (f : Faults) (fl : ExpenseFilters) : ApiResult :=
  let expenses := sortByDateDesc (db.expenses.filter (matchesFilters fl))
  if expenses.isEmpty then
    .okBareList 200 []
  else
    let employeeIds := collectEmployeeIds expenses
    if employeeIds.isEmpty then
      .okBareList 200 expenses
    else if f.employeeLookupFails then
      -- the batch lookup errored: return expenses without employee data
      .okBareList 200 expenses
    else
      let employeeRows := db.employees.filter (fun e => employeeIds.contains e.1)
      .okDecoratedList 200 (expenses.map (fun e =>
        ⟨e, if e.employee_id == "" then none
            else employeeRows.find? (fun emp => emp.1 == e.employee_id)⟩))

/-- Function `getExpenseById`: point lookup; `single()` finding no row is the
`PGRST116` branch answered with 404 "Expense not found"; a failing
employee lookup is thrown and becomes a 400 error envelope. -/
def getExpenseById (db : Db) (f : Faults) (id : String) : ApiResult :=
  match db.expenses.find? (fun e => e.id == id) with
  | none => .err 404 "Expense not found"
  | some expense =>
    match fetchEmployeeSingle db f expense.employee_id with
    | none => .err 400 "employee lookup error"
    | some emp => .okExpense 200 ⟨expense, some emp⟩

/-- Defaulting step `if (!expense.payment_status) expense.payment_status = "pending"`. -/
def defaultPaymentStatus (u : ExpensePayload) : ExpensePayload :=
  if optStrFalsy u.payment_status then { u with payment_status := some "pending" }
  else u

/-- The row produced by `insert(expense).select("*").single()`: the
payload columns plus the server-assigned `id` and `created_at`. -/
def insertExpense (u : ExpensePayload) (newId now : String) : StoredExpense :=
  { id := newId
    date := u.date.getD ""
    amount := u.amount.getD 0
    category := u.category.getD ""
    description := u.description.getD ""
    payment_status := u.payment_status.getD ""
    payment_method := u.payment_method
    invoice_number := u.invoice_number
    notes := u.notes
    employee_id := u.employee_id.getD ""
    created_at := now }

/-- The column update `update(updates)`: set exactly the columns whose key the body
supplies, leaving the rest (and `id` / `created_at`) unchanged. -/
def applyUpdate (e : StoredExpense) (u : ExpensePayload) : StoredExpense :=
  { e with
    date := u.date.getD e.date
    amount := u.amount.getD e.amount
    category := u.category.getD e.category
    description := u.description.getD e.description
    payment_status := u.payment_status.getD e.payment_status
    payment_method := match u.payment_method with
      | none => e.payment_method
      | some m => some m
    invoice_number := match u.invoice_number with
      | none => e.invoice_number
      | some s => some s
    notes := match u.notes with
      | none => e.notes
      | some s => some s
    employee_id := u.employee_id.getD e.employee_id }

/-- Function `createExpenseTransaction`: the ledger row built from the mutated
expense and the supplied user id.  `now` stands for
`new Date().toISOString()`. -/
def createExpenseTransaction (e : StoredExpense) (userId now : String) :
    TransactionData :=
  { amount := e.amount
    payment_method := match e.payment_method with
      | none => "cash"
      | some m => if m == "" then "cash" else m
    payment_status := "completed"
    employee_id := userId
    entity_id := e.id
    entity_type := "expense"
    description := "Expense: " ++ e.description ++ " (" ++ e.category ++ ")"
    updated_at := now }

/-- Function `createExpense`: validate, default the payment status, insert, fetch
the employee (a failure there is thrown, after the row was already
inserted), then — when the payment status is "completed" — attempt the
transaction insert, swallowing its failure. -/
def createExpense (db : Db) (f : Faults) (u : ExpensePayload)
    (userId newId now : String) : ApiResult × Db :=
  let v := validateExpense u
  if v.isValid then
    let u1 := defaultPaymentStatus u
    let newExp := insertExpense u1 newId now
    let db1 : Db := { db with expenses := newExp :: db.expenses }
    match fetchEmployeeSingle db1 f newExp.employee_id with
    | none => (.err 400 "employee lookup error", db1)
    | some emp =>
      if u1.payment_status == some "completed" then
        if f.transactionInsertFails then
          -- the transaction error is caught and logged, not rethrown
          (.okExpense 201 ⟨newExp, some emp⟩, db1)
        else
          (.okExpense 201 ⟨newExp, some emp⟩,
           { db1 with transactions :=
               createExpenseTransaction newExp userId now :: db1.transactions })
      else
        (.okExpense 201 ⟨newExp, some emp⟩, db1)
  else
    (.err (v.status.getD 400) (v.message.getD ""), db)

/-- Function `updateExpense`: validate the updates, check existence, apply the
update, fetch the employee (failure thrown), then — when the body sets
payment_status to "completed" and the stored row was not yet
"completed" — attempt the transaction insert with the pre-update row's
employee id, swallowing its failure. -/
def updateExpense (db : Db) (f : Faults) (id : String) (u : ExpensePayload)
    (now : String) : ApiResult × Db :=
  let v := validateExpense u
  if v.isValid then
    match db.expenses.find? (fun e => e.id == id) with
    | none => (.err 404 "Expense not found", db)
    | some existing =>
      let updated := applyUpdate existing u
      let newList := db.expenses.map (fun e => if e.id == id then updated else e)
      let db1 : Db := { db with expenses := newList }
      match fetchEmployeeSingle db1 f updated.employee_id with
      | none => (.err 400 "employee lookup error", db1)
      | some emp =>
        if u.payment_status == some "completed" &&
           !(existing.payment_status == "completed") then
          if f.transactionInsertFails then
            (.okExpense 200 ⟨updated, some emp⟩, db1)
          else
            (.okExpense 200 ⟨updated, some emp⟩,
             { db1 with transactions :=
                 createExpenseTransaction updated existing.employee_id now ::
                   db1.transactions })
        else
          (.okExpense 200 ⟨updated, some emp⟩, db1)
  else
    (.err (v.status.getD 400) (v.message.getD ""), db)

/-- Function `deleteExpense`: check existence, refuse when the stored payment
status is "completed", otherwise delete and answer
`successResponse(null, 204)`. -/
def deleteExpense (db : Db) (id : String) : ApiResult × Db :=
  match db.expenses.find? (fun e => e.id == id) with
  | none => (.err 404 "Expense not found", db)
  | some existing =>
    if existing.payment_status == "completed" then
      (.err 400 "Cannot delete an expense with completed payment", db)
    else
      (.okNull 204,
       { db with expenses := db.expenses.filter (fun e => !(e.id == id)) })

/-- Check that the second list starts with the first. -/
def listStartsWith : List Char → List Char → Bool
  | [], _ => true
  | _ :: _, [] => false
  | p :: ps, c :: cs => p == c && listStartsWith ps cs

/-- The step `url.pathname.replace` with the anchored regex on
`/functions/v1/`: strip the fixed invocation marker when it starts the
path (the anchored regex can only match the 14-character literal at
position 0). -/
def dropFunctionsV1 (cs : List Char) : List Char :=
  if listStartsWith "/functions/v1/".data cs then cs.drop 14 else cs

/-- Splitting a character list at every `/`, exactly like the JS
`split("/")` with a one-character separator: the empty input gives one
empty field, and each separator ends the current field. -/
def splitOnSlash : List Char → List (List Char)
  | [] => [[]]
  | c :: cs =>
    if c = Char.ofNat 47 then [] :: splitOnSlash cs
    else
      match splitOnSlash cs with
      | [] => [[c]]
      | p :: ps => (c :: p) :: ps

/-- The split `pathname.replace(...).split("/")`. -/
def pathParts (p : String) : List String :=
  (splitOnSlash (dropFunctionsV1 p.data)).map (fun cs => ⟨cs⟩)

/-- The character class `[a-zA-Z0-9-]`. -/
def isAlnumHyphen (c : Char) : Bool :=
  c.isAlpha || c.isDigit || c == Char.ofNat 45

/-- The test `subRoute.match` against the id pattern as a Boolean: a leading slash
followed by one or more alphanumeric-or-hyphen characters. -/
def matchesIdPattern (s : String) : Bool :=
  match s.data with
  | c :: rest =>
    c = Char.ofNat 47 && !rest.isEmpty && rest.all isAlnumHyphen
  | [] => false

/-- The id segment `subRoute.split("/")[1]` (with the JS `undefined` as `""`, which can
only arise when the id pattern did not match). -/
def subRouteId (s : String) : String :=
  ⟨((splitOnSlash s.data).get? 1).getD []⟩

/-- Query parameter normalisation `params.get(k) || undefined`: a missing or empty query parameter
becomes `undefined`. -/
def normParam : Option String → Option String
  | none => none
  | some s => if s == "" then none else some s

/-- Function `getUserFromRequest`: require an `Authorization` header starting
with `Bearer `, then resolve the token through the external identity
provider `resolve` (token → user id, `none` on failure).  Since the
header starts with the literal, `replace("Bearer ", "")` removes
exactly that 7-character leading occurrence. -/
def getUserFromRequest (resolve : String → Option String)
    (authHeader : Option String) : Option String :=
  match authHeader with
  | none => none
  | some h =>
    if listStartsWith "Bearer ".data h.data then resolve (h.drop 7) else none

/-- The parts of the incoming request the handler inspects.  `body` is
the outcome of `parseRequestBody`: `none` when the content type is not
JSON or the body fails to parse (both throw). -/
structure Request where
  method : String
  pathname : String
  authHeader : Option String
  body : Option ExpensePayload
  categoryParam : Option String
  startDateParam : Option String
  endDateParam : Option String
  paymentStatusParam : Option String
  deriving DecidableEq

/-- The `ExpenseFilters` built in the list route. -/
def filtersFromParams (req : Request) : ExpenseFilters :=
  { category := normParam req.categoryParam
    startDate := normParam req.startDateParam
    endDate := normParam req.endDateParam
    paymentStatus := normParam req.paymentStatusParam }

/-- The handler outcome: the response, the resulting store, and whether
any expense-store operation was reached. -/
structure RouterResult where
  result : ApiResult
  db : Db
  dbAccessed : Bool
  deriving DecidableEq

/-- The `serve` request handler: CORS preflight, path parsing, the
auth-exempt summary route, the authentication gate, then the
method/sub-route dispatch falling through to 405.  `resolve` is the
external identity provider; `newId` and `now` stand for the id and
timestamps the store and clock would produce. -/
def serveExpenses (db : Db) (f : Faults) (resolve : String → Option String)
    (req : Request) (newId now : String) : RouterResult :=
  -- Modelled from the spec: `handleCors` (shared module absent from the
  -- snapshot) answers the preflight OPTIONS request before any routing.
  if req.method == "OPTIONS" then ⟨.corsPreflight, db, false⟩
  else
    let parts := pathParts req.pathname
    let mainRoute := parts.headD ""
    let subRoute := (parts.get? 1).getD ""
    if !(mainRoute == "expenses") then ⟨.err 404 "Not found", db, false⟩
    else if subRoute == "summary" then
      if req.method == "GET" then ⟨.okSummary 200, db, false⟩
      else ⟨.err 405 "Method not allowed", db, false⟩
    else
      match getUserFromRequest resolve req.authHeader with
      | none => ⟨.err 401 "Unauthorized", db, false⟩
      | some uid =>
        if req.method == "GET" then
          if subRoute == "" || subRoute == "/" then
            ⟨getExpenses db f (filtersFromParams req), db, true⟩
          else if subRoute == "/categories" then
            ⟨.okCategories 200 expenseCategoryList, db, false⟩
          else if matchesIdPattern subRoute then
            ⟨getExpenseById db f (subRouteId subRoute), db, true⟩
          else ⟨.err 405 "Method not allowed", db, false⟩
        else if req.method == "POST" && (subRoute == "" || subRoute == "/") then
          match req.body with
          | none => ⟨.err 400 "Failed to parse request body", db, false⟩
          | some data =>
            let r := createExpense db f data uid newId now
            ⟨r.1, r.2, true⟩
        else if req.method == "PUT" && matchesIdPattern subRoute then
          match req.body with
          | none => ⟨.err 400 "Failed to parse request body", db, false⟩
          | some data =>
            let r := updateExpense db f (subRouteId subRoute) data now
            ⟨r.1, r.2, true⟩
        else if req.method == "DELETE" && matchesIdPattern subRoute then
          let r := deleteExpense db (subRouteId subRoute)
          ⟨r.1, r.2, true⟩
        else ⟨.err 405 "Method not allowed", db, false⟩

/-- Written from the wording of the spec, for comparison with the
regex model: the 8-4-4-4-12 case-insensitive hexadecimal UUID shape. -/
def UuidShape (s : String) : Prop :=
  ∃ a b c d e : List Char,
    s.data = a ++ Char.ofNat 45 :: (b ++ Char.ofNat 45 :: (c ++ Char.ofNat 45 ::
      (d ++ Char.ofNat 45 :: e))) ∧
    (a.length = 8 ∧ ∀ x ∈ a, isHexDigit x = true) ∧
    (b.length = 4 ∧ ∀ x ∈ b, isHexDigit x = true) ∧
    (c.length = 4 ∧ ∀ x ∈ c, isHexDigit x = true) ∧
    (d.length = 4 ∧ ∀ x ∈ d, isHexDigit x = true) ∧
    (e.length = 12 ∧ ∀ x ∈ e, isHexDigit x = true)

/-! Concrete sample data, used to instantiate the theorems below on
closed inputs. -/

/-- A well-formed employee UUID. -/
def sampleEmployeeId : String := "11111111-1111-1111-1111-111111111111"

/-- The matching row of the employees table. -/
def sampleEmployee : String × String := (sampleEmployeeId, "Alice Doe")

/-- No injected store failures. -/
def noFaults : Faults := ⟨false, false⟩

/-- Only the employee lookup fails. -/
def lookupFailFaults : Faults := ⟨true, false⟩

/-- Only the transactions insert fails. -/
def txFailFaults : Faults := ⟨false, true⟩

/-- An empty query string. -/
def noFilters : ExpenseFilters := ⟨none, none, none, none⟩

/-- A fixed timestamp standing for the clock value during a request. -/
def t0 : String := "2024-05-01T00:00:00Z"

/-- A fully valid create payload that omits payment_status. -/
def samplePayload : ExpensePayload :=
  { date := some "2024-01-01", amount := some 100, category := some "rent",
    description := some "Office rent", payment_status := none,
    payment_method := none, invoice_number := none, notes := none,
    employee_id := some sampleEmployeeId }

/-- The same payload with payment_status set to "completed". -/
def completedPayload : ExpensePayload :=
  { samplePayload with payment_status := some "completed" }

/-- A body supplying only payment_status, as the partial-update surface
describes. -/
def onlyStatusPayload : ExpensePayload :=
  { date := none, amount := none, category := none, description := none,
    payment_status := some "completed", payment_method := none,
    invoice_number := none, notes := none, employee_id := none }

/-- A stored pending expense. -/
def pendingStored : StoredExpense :=
  { id := "exp-1", date := "2024-01-01", amount := 100, category := "rent",
    description := "Office rent", payment_status := "pending",
    payment_method := none, invoice_number := none, notes := none,
    employee_id := sampleEmployeeId, created_at := "2024-01-01T00:00:00Z" }

/-- A stored expense whose payment is already completed. -/
def completedStored : StoredExpense :=
  { pendingStored with id := "exp-2", payment_status := "completed" }

/-- A store holding both stored expenses and the sample employee. -/
def sampleDb : Db := ⟨[pendingStored, completedStored], [sampleEmployee], []⟩

/-- An identity provider accepting exactly the token "token-1". -/
def sampleResolve : String → Option String :=
  fun t => if t == "token-1" then some "user-1" else none

/-! Supporting lemmas. -/

/-- Running `hexRun n` succeeds exactly on inputs that start with `n`
hex digits, returning the rest. -/
theorem hexRun_some_iff (n : Nat) : ∀ cs rest : List Char,
    hexRun n cs = some rest ↔
      ∃ pre, cs = pre ++ rest ∧ pre.length = n ∧
        ∀ c ∈ pre, isHexDigit c = true := by
  induction n with
  | zero =>
    intro cs rest
    constructor
    · intro h
      refine ⟨[], ?_, rfl, by intro c hc; cases hc⟩
      simpa [hexRun] using h
    · rintro ⟨pre, rfl, hlen, _⟩
      have hp : pre = [] := List.length_eq_zero.mp hlen
      subst hp
      simp [hexRun]
  | succ n ih =>
    intro cs rest
    cases cs with
    | nil =>
      constructor
      · intro h; simp [hexRun] at h
      · rintro ⟨pre, heq, hlen, _⟩
        cases pre with
        | nil => simp at hlen
        | cons p ps => simp at heq
    | cons c cs =>
      constructor
      · intro h
        by_cases hc : isHexDigit c = true
        · rw [show hexRun (n + 1) (c :: cs) = hexRun n cs by
            simp [hexRun, hc]] at h
          obtain ⟨pre, rfl, hlen, hall⟩ := (ih cs rest).mp h
          refine ⟨c :: pre, rfl, by simp [hlen], ?_⟩
          intro x hx
          rcases List.mem_cons.mp hx with h1 | h1
          · exact h1 ▸ hc
          · exact hall x h1
        · rw [show hexRun (n + 1) (c :: cs) = none by simp [hexRun, hc]] at h
          cases h
      · rintro ⟨pre, heq, hlen, hall⟩
        cases pre with
        | nil => simp at hlen
        | cons p ps =>
          rw [List.cons_append] at heq
          obtain ⟨hpc, hcs⟩ := List.cons.inj heq
          subst hpc
          have hc : isHexDigit c = true := hall c (List.mem_cons_self c ps)
          rw [show hexRun (n + 1) (c :: cs) = hexRun n cs by simp [hexRun, hc]]
          exact (ih cs rest).mpr
            ⟨ps, hcs, by simpa using hlen,
             fun x hx => hall x (List.mem_cons_of_mem _ hx)⟩

/-- Expecting a hyphen succeeds exactly on inputs headed by one. -/
theorem expectHyphen_some_iff (cs rest : List Char) :
    expectHyphen cs = some rest ↔ cs = Char.ofNat 45 :: rest := by
  cases cs with
  | nil => simp [expectHyphen]
  | cons c cs =>
    by_cases hc : c = Char.ofNat 45
    · subst hc; simp [expectHyphen]
    · simp [expectHyphen, hc]

/-- The regex model of the employee-id check accepts exactly the
8-4-4-4-12 case-insensitive hexadecimal UUID shape of the spec. -/
theorem uuidTest_iff_shape (s : String) : uuidTest s = true ↔ UuidShape s := by
  unfold uuidTest uuidChars UuidShape
  rw [beq_iff_eq]
  constructor
  · intro h
    obtain ⟨x7, h7, hx8⟩ := Option.bind_eq_some.mp h
    obtain ⟨x6, h6, hx7⟩ := Option.bind_eq_some.mp h7
    obtain ⟨x5, h5, hx6⟩ := Option.bind_eq_some.mp h6
    obtain ⟨x4, h4, hx5⟩ := Option.bind_eq_some.mp h5
    obtain ⟨x3, h3, hx4⟩ := Option.bind_eq_some.mp h4
    obtain ⟨x2, h2, hx3⟩ := Option.bind_eq_some.mp h3
    obtain ⟨x1, h1, hx2⟩ := Option.bind_eq_some.mp h2
    obtain ⟨x0, h0, hx1⟩ := Option.bind_eq_some.mp h1
    rw [expectHyphen_some_iff] at hx1 hx3 hx5 hx7
    obtain ⟨a, ha, ha8, haH⟩ := (hexRun_some_iff 8 _ _).mp h0
    obtain ⟨b, hb, hb4, hbH⟩ := (hexRun_some_iff 4 _ _).mp hx2
    obtain ⟨c, hc, hc4, hcH⟩ := (hexRun_some_iff 4 _ _).mp hx4
    obtain ⟨d, hd, hd4, hdH⟩ := (hexRun_some_iff 4 _ _).mp hx6
    obtain ⟨e, he, he12, heH⟩ := (hexRun_some_iff 12 _ _).mp hx8
    refine ⟨a, b, c, d, e, ?_, ⟨ha8, haH⟩, ⟨hb4, hbH⟩, ⟨hc4, hcH⟩,
      ⟨hd4, hdH⟩, ⟨he12, heH⟩⟩
    rw [ha, hx1, hb, hx3, hc, hx5, hd, hx7, he]
    simp
  · rintro ⟨a, b, c, d, e, hs, ⟨ha8, haH⟩, ⟨hb4, hbH⟩, ⟨hc4, hcH⟩,
      ⟨hd4, hdH⟩, ⟨he12, heH⟩⟩
    have hh : ∀ t : List Char, expectHyphen (Char.ofNat 45 :: t) = some t := by
      intro t; simp [expectHyphen]
    have h0 : hexRun 8 s.data =
        some (Char.ofNat 45 :: (b ++ Char.ofNat 45 :: (c ++ Char.ofNat 45 ::
          (d ++ Char.ofNat 45 :: e)))) := by
      rw [hs]
      exact (hexRun_some_iff 8 _ _).mpr ⟨a, rfl, ha8, haH⟩
    have h1 : hexRun 4
        (b ++ Char.ofNat 45 :: (c ++ Char.ofNat 45 :: (d ++ Char.ofNat 45 :: e))) =
        some (Char.ofNat 45 :: (c ++ Char.ofNat 45 :: (d ++ Char.ofNat 45 :: e))) :=
      (hexRun_some_iff 4 _ _).mpr ⟨b, rfl, hb4, hbH⟩
    have h2 : hexRun 4 (c ++ Char.ofNat 45 :: (d ++ Char.ofNat 45 :: e)) =
        some (Char.ofNat 45 :: (d ++ Char.ofNat 45 :: e)) :=
      (hexRun_some_iff 4 _ _).mpr ⟨c, rfl, hc4, hcH⟩
    have h3 : hexRun 4 (d ++ Char.ofNat 45 :: e) = some (Char.ofNat 45 :: e) :=
      (hexRun_some_iff 4 _ _).mpr ⟨d, rfl, hd4, hdH⟩
    have h4 : hexRun 12 e = some [] :=
      (hexRun_some_iff 12 _ _).mpr ⟨e, by simp, he12, heH⟩
    rw [h0, Option.some_bind, hh, Option.some_bind, h1, Option.some_bind,
      hh, Option.some_bind, h2, Option.some_bind, hh, Option.some_bind, h3,
      Option.some_bind, hh, Option.some_bind, h4]

/-- After defaulting, the payment status key is always present. -/
theorem defaultPaymentStatus_isSome (u : ExpensePayload) :
    ∃ s, (defaultPaymentStatus u).payment_status = some s := by
  unfold defaultPaymentStatus
  by_cases h : optStrFalsy u.payment_status = true
  · rw [if_pos h]; exact ⟨"pending", rfl⟩
  · rw [if_neg h]
    cases hps : u.payment_status with
    | none => exact absurd (by simp [optStrFalsy, hps]) h
    | some s => exact ⟨s, rfl⟩

/-- Branch lemma: create with an invalid payload. -/
theorem createExpense_invalid (db : Db) (f : Faults) (u : ExpensePayload)
    (uid newId now : String)
    (hv : (validateExpense u).isValid = false) :
    createExpense db f u uid newId now =
      (.err ((validateExpense u).status.getD 400)
        ((validateExpense u).message.getD ""), db) := by
  simp [createExpense, hv]

/-- Branch lemma: create whose employee lookup errors after the insert. -/
theorem createExpense_empFail (db : Db) (f : Faults) (u : ExpensePayload)
    (uid newId now : String)
    (hv : (validateExpense u).isValid = true)
    (hemp : fetchEmployeeSingle db f
      ((defaultPaymentStatus u).employee_id.getD "") = none) :
    createExpense db f u uid newId now =
      (.err 400 "employee lookup error",
       { db with expenses :=
           insertExpense (defaultPaymentStatus u) newId now :: db.expenses }) := by
  have hemp2 : fetchEmployeeSingle
      { db with expenses :=
          insertExpense (defaultPaymentStatus u) newId now :: db.expenses } f
      (insertExpense (defaultPaymentStatus u) newId now).employee_id = none := hemp
  simp [createExpense, hv, hemp2]

/-- Branch lemma: create of a completed expense with the transaction
insert succeeding. -/
theorem createExpense_completed_ok (db : Db) (f : Faults) (u : ExpensePayload)
    (uid newId now : String) (emp : String × String)
    (hv : (validateExpense u).isValid = true)
    (hemp : fetchEmployeeSingle db f
      ((defaultPaymentStatus u).employee_id.getD "") = some emp)
    (hcomp : (defaultPaymentStatus u).payment_status = some "completed")
    (htx : f.transactionInsertFails = false) :
    createExpense db f u uid newId now =
      (.okExpense 201
         ⟨insertExpense (defaultPaymentStatus u) newId now, some emp⟩,
       { db with
           expenses := insertExpense (defaultPaymentStatus u) newId now ::
             db.expenses,
           transactions := createExpenseTransaction
             (insertExpense (defaultPaymentStatus u) newId now) uid now ::
               db.transactions }) := by
  have hemp2 : fetchEmployeeSingle
      { db with expenses :=
          insertExpense (defaultPaymentStatus u) newId now :: db.expenses } f
      (insertExpense (defaultPaymentStatus u) newId now).employee_id =
        some emp := hemp
  simp [createExpense, hv, hemp2, hcomp, htx]

/-- Branch lemma: create of a completed expense whose transaction insert
errors — the error is swallowed. -/
theorem createExpense_completed_txFail (db : Db) (f : Faults)
    (u : ExpensePayload) (uid newId now : String) (emp : String × String)
    (hv : (validateExpense u).isValid = true)
    (hemp : fetchEmployeeSingle db f
      ((defaultPaymentStatus u).employee_id.getD "") = some emp)
    (hcomp : (defaultPaymentStatus u).payment_status = some "completed")
    (htx : f.transactionInsertFails = true) :
    createExpense db f u uid newId now =
      (.okExpense 201
         ⟨insertExpense (defaultPaymentStatus u) newId now, some emp⟩,
       { db with expenses :=
           insertExpense (defaultPaymentStatus u) newId now :: db.expenses }) := by
  have hemp2 : fetchEmployeeSingle
      { db with expenses :=
          insertExpense (defaultPaymentStatus u) newId now :: db.expenses } f
      (insertExpense (defaultPaymentStatus u) newId now).employee_id =
        some emp := hemp
  simp [createExpense, hv, hemp2, hcomp, htx]

/-- Branch lemma: create of a non-completed expense — no transaction. -/
theorem createExpense_notCompleted (db : Db) (f : Faults) (u : ExpensePayload)
    (uid newId now : String) (emp : String × String)
    (hv : (validateExpense u).isValid = true)
    (hemp : fetchEmployeeSingle db f
      ((defaultPaymentStatus u).employee_id.getD "") = some emp)
    (hcomp : (defaultPaymentStatus u).payment_status ≠ some "completed") :
    createExpense db f u uid newId now =
      (.okExpense 201
         ⟨insertExpense (defaultPaymentStatus u) newId now, some emp⟩,
       { db with expenses :=
           insertExpense (defaultPaymentStatus u) newId now :: db.expenses }) := by
  have hemp2 : fetchEmployeeSingle
      { db with expenses :=
          insertExpense (defaultPaymentStatus u) newId now :: db.expenses } f
      (insertExpense (defaultPaymentStatus u) newId now).employee_id =
        some emp := hemp
  have hb : ((defaultPaymentStatus u).payment_status == some "completed") =
      false := beq_eq_false_iff_ne.mpr hcomp
  simp [createExpense, hv, hemp2, hb]

/-- Branch lemma: update with an invalid payload. -/
theorem updateExpense_invalid (db : Db) (f : Faults) (id : String)
    (u : ExpensePayload) (now : String)
    (hv : (validateExpense u).isValid = false) :
    updateExpense db f id u now =
      (.err ((validateExpense u).status.getD 400)
        ((validateExpense u).message.getD ""), db) := by
  simp [updateExpense, hv]

/-- Branch lemma: update of an id that resolves to no row. -/
theorem updateExpense_notFound (db : Db) (f : Faults) (id : String)
    (u : ExpensePayload) (now : String)
    (hv : (validateExpense u).isValid = true)
    (hex : db.expenses.find? (fun e => e.id == id) = none) :
    updateExpense db f id u now = (.err 404 "Expense not found", db) := by
  simp [updateExpense, hv, hex]

/-- Branch lemma: update whose employee lookup errors after the write. -/
theorem updateExpense_empFail (db : Db) (f : Faults) (id : String)
    (u : ExpensePayload) (now : String) (ex : StoredExpense)
    (hv : (validateExpense u).isValid = true)
    (hex : db.expenses.find? (fun e => e.id == id) = some ex)
    (hemp : fetchEmployeeSingle db f (applyUpdate ex u).employee_id = none) :
    updateExpense db f id u now =
      (.err 400 "employee lookup error",
       { db with expenses :=
           db.expenses.map (fun e => if e.id == id then applyUpdate ex u else e) }) := by
  have hemp2 : fetchEmployeeSingle
      { expenses := db.expenses.map
          (fun e => if e.id = id then applyUpdate ex u else e),
        employees := db.employees, transactions := db.transactions }
      f (applyUpdate ex u).employee_id = none := hemp
  simp [updateExpense, hv, hex, hemp2]

/-- Branch lemma: update changing the payment status to "completed" from
a different stored status, with the transaction insert succeeding. -/
theorem updateExpense_trigger_ok (db : Db) (f : Faults) (id : String)
    (u : ExpensePayload) (now : String) (ex : StoredExpense)
    (emp : String × String)
    (hv : (validateExpense u).isValid = true)
    (hex : db.expenses.find? (fun e => e.id == id) = some ex)
    (hemp : fetchEmployeeSingle db f (applyUpdate ex u).employee_id = some emp)
    (hcomp : u.payment_status = some "completed")
    (hold : ex.payment_status ≠ "completed")
    (htx : f.transactionInsertFails = false) :
    updateExpense db f id u now =
      (.okExpense 200 ⟨applyUpdate ex u, some emp⟩,
       { db with
           expenses := db.expenses.map
             (fun e => if e.id == id then applyUpdate ex u else e),
           transactions := createExpenseTransaction (applyUpdate ex u)
             ex.employee_id now :: db.transactions }) := by
  have hemp2 : fetchEmployeeSingle
      { expenses := db.expenses.map
          (fun e => if e.id = id then applyUpdate ex u else e),
        employees := db.employees, transactions := db.transactions }
      f (applyUpdate ex u).employee_id = some emp := hemp
  have hb : (ex.payment_status == "completed") = false :=
    beq_eq_false_iff_ne.mpr hold
  simp [updateExpense, hv, hex, hemp2, hcomp, hb, htx]

/-- Branch lemma: the completed transition with the transaction insert
erroring — the error is swallowed. -/
theorem updateExpense_trigger_txFail (db : Db) (f : Faults) (id : String)
    (u : ExpensePayload) (now : String) (ex : StoredExpense)
    (emp : String × String)
    (hv : (validateExpense u).isValid = true)
    (hex : db.expenses.find? (fun e => e.id == id) = some ex)
    (hemp : fetchEmployeeSingle db f (applyUpdate ex u).employee_id = some emp)
    (hcomp : u.payment_status = some "completed")
    (hold : ex.payment_status ≠ "completed")
    (htx : f.transactionInsertFails = true) :
    updateExpense db f id u now =
      (.okExpense 200 ⟨applyUpdate ex u, some emp⟩,
       { db with expenses :=
           db.expenses.map (fun e => if e.id == id then applyUpdate ex u else e) }) := by
  have hemp2 : fetchEmployeeSingle
      { expenses := db.expenses.map
          (fun e => if e.id = id then applyUpdate ex u else e),
        employees := db.employees, transactions := db.transactions }
      f (applyUpdate ex u).employee_id = some emp := hemp
  have hb : (ex.payment_status == "completed") = false :=
    beq_eq_false_iff_ne.mpr hold
  simp [updateExpense, hv, hex, hemp2, hcomp, hb, htx]

/-- Branch lemma: an update that is not a completed transition — no
transaction is attempted. -/
theorem updateExpense_noTrigger (db : Db) (f : Faults) (id : String)
    (u : ExpensePayload) (now : String) (ex : StoredExpense)
    (emp : String × String)
    (hv : (validateExpense u).isValid = true)
    (hex : db.expenses.find? (fun e => e.id == id) = some ex)
    (hemp : fetchEmployeeSingle db f (applyUpdate ex u).employee_id = some emp)
    (hnt : ¬(u.payment_status = some "completed" ∧
      ex.payment_status ≠ "completed")) :
    updateExpense db f id u now =
      (.okExpense 200 ⟨applyUpdate ex u, some emp⟩,
       { db with expenses :=
           db.expenses.map (fun e => if e.id == id then applyUpdate ex u else e) }) := by
  have hemp2 : fetchEmployeeSingle
      { expenses := db.expenses.map
          (fun e => if e.id = id then applyUpdate ex u else e),
        employees := db.employees, transactions := db.transactions }
      f (applyUpdate ex u).employee_id = some emp := hemp
  have hcond : (u.payment_status == some "completed" &&
      !(ex.payment_status == "completed")) = false := by
    rcases not_and_or.mp hnt with h | h
    · simp [beq_eq_false_iff_ne.mpr h]
    · have hc : ex.payment_status = "completed" := not_not.mp h
      simp [hc]
  simp [updateExpense, hv, hex, hemp2, hcond]

/-! Claim theorems. -/

/-- C4: the validator is a pure function checking, in order and
short-circuiting at the first failure: date present; amount present and
positive; category present; description present; employee id present and
of the 8-4-4-4-12 case-insensitive hexadecimal UUID shape; the first
failing check yields status 400 with a message identifying exactly that
field, and a payload passing all checks is valid. -/
theorem validateExpense_checks_in_order (u : ExpensePayload) :
    (optStrFalsy u.date = true →
      validateExpense u = ⟨false, some "Expense date is required", some 400⟩) ∧
    (optStrFalsy u.date = false →
      (∀ q, u.amount = some q → q ≤ 0) →
      validateExpense u =
        ⟨false, some "Amount must be a positive number", some 400⟩) ∧
    (optStrFalsy u.date = false →
      (∃ q, u.amount = some q ∧ 0 < q) →
      optStrFalsy u.category = true →
      validateExpense u = ⟨false, some "Category is required", some 400⟩) ∧
    (optStrFalsy u.date = false →
      (∃ q, u.amount = some q ∧ 0 < q) →
      optStrFalsy u.category = false →
      optStrFalsy u.description = true →
      validateExpense u = ⟨false, some "Description is required", some 400⟩) ∧
    (optStrFalsy u.date = false →
      (∃ q, u.amount = some q ∧ 0 < q) →
      optStrFalsy u.category = false →
      optStrFalsy u.description = false →
      optStrFalsy u.employee_id = true →
      validateExpense u = ⟨false, some "Employee ID is required", some 400⟩) ∧
    (optStrFalsy u.date = false →
      (∃ q, u.amount = some q ∧ 0 < q) →
      optStrFalsy u.category = false →
      optStrFalsy u.description = false →
      optStrFalsy u.employee_id = false →
      ¬UuidShape (u.employee_id.getD "") →
      validateExpense u =
        ⟨false, some "Invalid employee ID format", some 400⟩) ∧
    (optStrFalsy u.date = false →
      (∃ q, u.amount = some q ∧ 0 < q) →
      optStrFalsy u.category = false →
      optStrFalsy u.description = false →
      optStrFalsy u.employee_id = false →
      UuidShape (u.employee_id.getD "") →
      validateExpense u = ⟨true, none, none⟩) := by
  have hamF : (∀ q, u.amount = some q → q ≤ 0) →
      (optRatFalsy u.amount || decide (u.amount.getD 0 ≤ 0)) = true := by
    intro hq
    cases ham : u.amount with
    | none => simp [optRatFalsy]
    | some q =>
      have := hq q ham
      simp [optRatFalsy, this]
  have hamT : (∃ q, u.amount = some q ∧ 0 < q) →
      (optRatFalsy u.amount || decide (u.amount.getD 0 ≤ 0)) = false := by
    rintro ⟨q, hq, hpos⟩
    have h1 : ¬q = 0 := ne_of_gt hpos
    have h2 : ¬q ≤ 0 := not_le.mpr hpos
    simp [optRatFalsy, hq, h1, h2]
  refine ⟨?_, ?_, ?_, ?_, ?_, ?_, ?_⟩
  · intro h1
    simp [validateExpense, h1]
  · intro h1 h2
    simp [validateExpense, h1, hamF h2]
  · intro h1 h2 h3
    simp [validateExpense, h1, hamT h2, h3]
  · intro h1 h2 h3 h4
    simp [validateExpense, h1, hamT h2, h3, h4]
  · intro h1 h2 h3 h4 h5
    simp [validateExpense, h1, hamT h2, h3, h4, h5]
  · intro h1 h2 h3 h4 h5 h6
    have hu : uuidTest (u.employee_id.getD "") = false := by
      cases h : uuidTest (u.employee_id.getD "") with
      | false => rfl
      | true => exact absurd ((uuidTest_iff_shape _).mp h) h6
    simp [validateExpense, h1, hamT h2, h3, h4, h5, hu]
  · intro h1 h2 h3 h4 h5 h6
    have hu : uuidTest (u.employee_id.getD "") = true :=
      (uuidTest_iff_shape _).mpr h6
    simp [validateExpense, h1, hamT h2, h3, h4, h5, hu]

/-- Closed instances of the C4 theorem: the first failing check wins on
concrete payloads, and the sample payload is valid. -/
theorem validateExpense_checks_in_order_witness :
    validateExpense { samplePayload with date := none } =
      ⟨false, some "Expense date is required", some 400⟩ ∧
    validateExpense { samplePayload with amount := some 0 } =
      ⟨false, some "Amount must be a positive number", some 400⟩ ∧
    validateExpense samplePayload = ⟨true, none, none⟩ := by
  refine ⟨?_, ?_, ?_⟩
  · exact (validateExpense_checks_in_order _).1 (by decide)
  · exact (validateExpense_checks_in_order _).2.1 (by decide)
      (by intro q hq; cases hq; rfl)
  · exact (validateExpense_checks_in_order _).2.2.2.2.2.2 (by decide)
      ⟨100, rfl, by norm_num⟩ (by decide) (by decide) (by decide)
      ((uuidTest_iff_shape _).mp (by decide))

/-- C5: delete answers Not-Found for an unknown id; refuses with 400 and
leaves the store unchanged when the stored payment status is
"completed"; and for every other status removes the record and answers
204 with a null body. -/
theorem deleteExpense_rules (db : Db) (id : String) :
    (db.expenses.find? (fun e => e.id == id) = none →
      deleteExpense db id = (.err 404 "Expense not found", db)) ∧
    (∀ ex, db.expenses.find? (fun e => e.id == id) = some ex →
      ex.payment_status = "completed" →
      deleteExpense db id =
        (.err 400 "Cannot delete an expense with completed payment", db)) ∧
    (∀ ex, db.expenses.find? (fun e => e.id == id) = some ex →
      ex.payment_status ≠ "completed" →
      deleteExpense db id =
        (.okNull 204,
         { db with expenses := db.expenses.filter (fun e => !(e.id == id)) })) := by
  refine ⟨?_, ?_, ?_⟩
  · intro h
    simp [deleteExpense, h]
  · intro ex h hc
    simp [deleteExpense, h, hc]
  · intro ex h hc
    have hb : (ex.payment_status == "completed") = false :=
      beq_eq_false_iff_ne.mpr hc
    simp [deleteExpense, h, hb]

/-- Closed instances of the C5 theorem on the sample store: unknown id,
completed expense, pending expense. -/
theorem deleteExpense_rules_witness :
    deleteExpense sampleDb "missing-id" = (.err 404 "Expense not found", sampleDb) ∧
    deleteExpense sampleDb "exp-2" =
      (.err 400 "Cannot delete an expense with completed payment", sampleDb) ∧
    deleteExpense sampleDb "exp-1" =
      (.okNull 204,
       { sampleDb with expenses :=
           sampleDb.expenses.filter (fun e => !(e.id == "exp-1")) }) := by
  refine ⟨?_, ?_, ?_⟩
  · exact (deleteExpense_rules sampleDb "missing-id").1 (by decide)
  · exact (deleteExpense_rules sampleDb "exp-2").2.1 completedStored
      (by decide) (by decide)
  · exact (deleteExpense_rules sampleDb "exp-1").2.2 pendingStored
      (by decide) (by decide)

/-- C2 (failing evaluation): the update path runs the full-payload
validator over the body, so a partial payload supplying only
payment_status is rejected with 400 "Expense date is required" and the
store is untouched, even though expense "exp-1" exists. -/
theorem update_partial_payload_rejected :
    updateExpense sampleDb noFaults "exp-1" onlyStatusPayload
      "2024-02-01T00:00:00Z" = (.err 400 "Expense date is required", sampleDb) ∧
    validateExpense onlyStatusPayload =
      ⟨false, some "Expense date is required", some 400⟩ := by
  exact ⟨by decide, by decide⟩

/-- C3 (failing evaluation): an authenticated GET whose sub-route is the
alphanumeric/hyphen identifier "does-not-exist-id" is answered 405 by
the router — the split sub-route never carries the leading slash the id
pattern demands — while the getById operation itself would answer 404
"Expense not found" for that id. -/
theorem getById_route_unreachable :
    serveExpenses sampleDb noFaults sampleResolve
      { method := "GET",
        pathname := "/functions/v1/expenses/does-not-exist-id",
        authHeader := some "Bearer token-1", body := none,
        categoryParam := none, startDateParam := none, endDateParam := none,
        paymentStatusParam := none } "new-id" "2024-02-01T00:00:00Z" =
      ⟨.err 405 "Method not allowed", sampleDb, false⟩ ∧
    getExpenseById sampleDb noFaults "does-not-exist-id" =
      .err 404 "Expense not found" ∧
    matchesIdPattern "does-not-exist-id" = false ∧
    matchesIdPattern "/does-not-exist-id" = true := by
  exact ⟨by decide, by decide, by decide, by decide⟩

/-- C8: a valid create payload omitting payment_status is stored and
returned with payment_status "pending", the response status is 201, and
no transaction record is created. -/
theorem create_defaults_payment_status_pending
    (db : Db) (u : ExpensePayload) (uid newId now : String)
    (emp : String × String)
    (hps : u.payment_status = none)
    (hv : (validateExpense u).isValid = true)
    (hemp : db.employees.find? (fun e2 => e2.1 == u.employee_id.getD "") =
      some emp) :
    createExpense db noFaults u uid newId now =
      (.okExpense 201
         ⟨insertExpense (defaultPaymentStatus u) newId now, some emp⟩,
       { db with expenses :=
           insertExpense (defaultPaymentStatus u) newId now :: db.expenses }) ∧
    (insertExpense (defaultPaymentStatus u) newId now).payment_status =
      "pending" := by
  have h1 : defaultPaymentStatus u = { u with payment_status := some "pending" } := by
    simp [defaultPaymentStatus, hps, optStrFalsy]
  constructor
  · simp [createExpense, hv, h1, fetchEmployeeSingle, noFaults, insertExpense,
      hemp]
  · simp [insertExpense, h1]

/-- Closed instance of the C8 theorem: the scenario payload from the
spec, stored pending with no transaction. -/
theorem create_defaults_payment_status_pending_witness :
    createExpense ⟨[], [sampleEmployee], []⟩ noFaults samplePayload
      "user-1" "exp-9" "2024-03-01T00:00:00Z" =
      (.okExpense 201
         ⟨insertExpense (defaultPaymentStatus samplePayload) "exp-9"
            "2024-03-01T00:00:00Z", some sampleEmployee⟩,
       { Db.mk [] [sampleEmployee] [] with expenses :=
           [insertExpense (defaultPaymentStatus samplePayload) "exp-9"
              "2024-03-01T00:00:00Z"] }) ∧
    (insertExpense (defaultPaymentStatus samplePayload) "exp-9"
       "2024-03-01T00:00:00Z").payment_status = "pending" := by
  exact create_defaults_payment_status_pending ⟨[], [sampleEmployee], []⟩
    samplePayload "user-1" "exp-9" "2024-03-01T00:00:00Z" sampleEmployee
    (by decide) (by decide) (by decide)

/-- C7: when the expense write succeeds, a failing transaction insert is
never surfaced: the response is still the success response (201 for
create, 200 for update) carrying the mutated expense, and the store
keeps the expense mutation with no compensating action. -/
theorem transaction_failure_swallowed
    (db : Db) (f : Faults) (u : ExpensePayload) (uid newId now id : String)
    (ex : StoredExpense) (emp : String × String)
    (htx : f.transactionInsertFails = true)
    (hv : (validateExpense u).isValid = true) :
    (fetchEmployeeSingle db f ((defaultPaymentStatus u).employee_id.getD "") =
        some emp →
      createExpense db f u uid newId now =
        (.okExpense 201
           ⟨insertExpense (defaultPaymentStatus u) newId now, some emp⟩,
         { db with expenses :=
             insertExpense (defaultPaymentStatus u) newId now :: db.expenses })) ∧
    (db.expenses.find? (fun e2 => e2.id == id) = some ex →
     fetchEmployeeSingle db f (applyUpdate ex u).employee_id = some emp →
      updateExpense db f id u now =
        (.okExpense 200 ⟨applyUpdate ex u, some emp⟩,
         { db with expenses :=
             db.expenses.map (fun e => if e.id == id then applyUpdate ex u else e) })) := by
  constructor
  · intro hemp
    by_cases hcomp : (defaultPaymentStatus u).payment_status = some "completed"
    · exact createExpense_completed_txFail db f u uid newId now emp hv hemp
        hcomp htx
    · exact createExpense_notCompleted db f u uid newId now emp hv hemp hcomp
  · intro hex hemp
    by_cases htr : u.payment_status = some "completed" ∧
        ex.payment_status ≠ "completed"
    · exact updateExpense_trigger_txFail db f id u now ex emp hv hex hemp
        htr.1 htr.2 htx
    · exact updateExpense_noTrigger db f id u now ex emp hv hex hemp htr

/-- Closed instances of the C7 theorem: a failing transactions insert
still answers 201 for the completed create and 200 for the completed
transition update, with no transaction row recorded. -/
theorem transaction_failure_swallowed_witness :
    createExpense sampleDb txFailFaults completedPayload "user-1" "exp-9"
      t0 =
      (.okExpense 201
         ⟨insertExpense (defaultPaymentStatus completedPayload) "exp-9"
            t0, some sampleEmployee⟩,
       { sampleDb with expenses :=
           (insertExpense (defaultPaymentStatus completedPayload) "exp-9"
             t0) :: sampleDb.expenses }) ∧
    updateExpense sampleDb txFailFaults "exp-1" completedPayload
      t0 =
      (.okExpense 200
         ⟨applyUpdate pendingStored completedPayload, some sampleEmployee⟩,
       { sampleDb with expenses :=
           (sampleDb.expenses.map
             (fun e => if e.id == "exp-1" then
               applyUpdate pendingStored completedPayload else e)) }) := by
  constructor
  · exact (transaction_failure_swallowed sampleDb txFailFaults completedPayload
      "user-1" "exp-9" t0 "exp-1" pendingStored
      sampleEmployee rfl (by decide)).1 (by decide)
  · exact (transaction_failure_swallowed sampleDb txFailFaults completedPayload
      "user-1" "exp-9" t0 "exp-1" pendingStored
      sampleEmployee rfl (by decide)).2 (by decide) (by decide)

/-- C9: employee-lookup failure is tolerated asymmetrically: a list call
whose expense query succeeds but whose batch employee lookup errors
still answers 200 with the bare expenses, while a getById on an existing
expense whose single employee lookup errors fails with a 400 error
envelope. -/
theorem employee_lookup_failure_asymmetry
    (db : Db) (f : Faults) (fl : ExpenseFilters) (id : String)
    (ex : StoredExpense)
    (hf : f.employeeLookupFails = true) :
    (sortByDateDesc (db.expenses.filter (matchesFilters fl)) ≠ [] →
     collectEmployeeIds
       (sortByDateDesc (db.expenses.filter (matchesFilters fl))) ≠ [] →
      getExpenses db f fl =
        .okBareList 200 (sortByDateDesc (db.expenses.filter (matchesFilters fl)))) ∧
    (db.expenses.find? (fun e => e.id == id) = some ex →
      getExpenseById db f id = .err 400 "employee lookup error") := by
  constructor
  · intro hne hids
    have hE : (sortByDateDesc (db.expenses.filter (matchesFilters fl))).isEmpty =
        false := by
      cases hh : (sortByDateDesc (db.expenses.filter (matchesFilters fl))).isEmpty
      · rfl
      · exact absurd (List.isEmpty_iff.mp hh) hne
    have hI : (collectEmployeeIds
        (sortByDateDesc (db.expenses.filter (matchesFilters fl)))).isEmpty =
        false := by
      cases hh : (collectEmployeeIds
        (sortByDateDesc (db.expenses.filter (matchesFilters fl)))).isEmpty
      · rfl
      · exact absurd (List.isEmpty_iff.mp hh) hids
    simp [getExpenses, hE, hI, hf]
  · intro hex
    simp [getExpenseById, hex, fetchEmployeeSingle, hf]

/-- Closed instances of the C9 theorem on the sample store with the
employee lookup failing. -/
theorem employee_lookup_failure_asymmetry_witness :
    getExpenses sampleDb lookupFailFaults noFilters =
      .okBareList 200
        (sortByDateDesc (sampleDb.expenses.filter (matchesFilters noFilters))) ∧
    getExpenseById sampleDb lookupFailFaults "exp-1" =
      .err 400 "employee lookup error" := by
  constructor
  · exact (employee_lookup_failure_asymmetry sampleDb lookupFailFaults
      noFilters "exp-1" pendingStored rfl).1 (by decide) (by decide)
  · exact (employee_lookup_failure_asymmetry sampleDb lookupFailFaults
      noFilters "exp-1" pendingStored rfl).2 (by decide)

/-- C10: the employee id written into a triggered transaction differs by
path: a create-triggered transaction carries the authenticated caller
id, an update-triggered transaction carries the pre-update stored
expense's employee id. -/
theorem transaction_employee_id_source
    (db : Db) (f : Faults) (u : ExpensePayload) (uid newId now id : String)
    (ex : StoredExpense) (emp : String × String)
    (htx : f.transactionInsertFails = false)
    (hv : (validateExpense u).isValid = true) :
    (fetchEmployeeSingle db f ((defaultPaymentStatus u).employee_id.getD "") =
        some emp →
     (defaultPaymentStatus u).payment_status = some "completed" →
      (createExpense db f u uid newId now).2.transactions =
        createExpenseTransaction
          (insertExpense (defaultPaymentStatus u) newId now) uid now ::
          db.transactions ∧
      (createExpenseTransaction
        (insertExpense (defaultPaymentStatus u) newId now) uid now).employee_id =
        uid) ∧
    (db.expenses.find? (fun e2 => e2.id == id) = some ex →
     fetchEmployeeSingle db f (applyUpdate ex u).employee_id = some emp →
     u.payment_status = some "completed" →
     ex.payment_status ≠ "completed" →
      (updateExpense db f id u now).2.transactions =
        createExpenseTransaction (applyUpdate ex u) ex.employee_id now ::
          db.transactions ∧
      (createExpenseTransaction (applyUpdate ex u)
        ex.employee_id now).employee_id = ex.employee_id) := by
  constructor
  · intro hemp hcomp
    rw [createExpense_completed_ok db f u uid newId now emp hv hemp hcomp htx]
    exact ⟨rfl, rfl⟩
  · intro hex hemp hcomp hold
    rw [updateExpense_trigger_ok db f id u now ex emp hv hex hemp hcomp hold htx]
    exact ⟨rfl, rfl⟩

/-- Closed instances of the C10 theorem: the creating caller "manager-9"
— distinct from the expense's own employee — is written into the
create-triggered transaction, while the update-triggered transaction
carries the pre-update row's employee id. -/
theorem transaction_employee_id_source_witness :
    (createExpense sampleDb noFaults completedPayload "manager-9" "exp-9"
      t0).2.transactions =
      createExpenseTransaction
        (insertExpense (defaultPaymentStatus completedPayload) "exp-9"
          t0) "manager-9" t0 ::
        sampleDb.transactions ∧
    (createExpenseTransaction
      (insertExpense (defaultPaymentStatus completedPayload) "exp-9"
        t0) "manager-9"
      t0).employee_id = "manager-9" ∧
    ("manager-9" : String) ≠
      (insertExpense (defaultPaymentStatus completedPayload) "exp-9"
        t0).employee_id ∧
    (updateExpense sampleDb noFaults "exp-1" completedPayload
      t0).2.transactions =
      createExpenseTransaction (applyUpdate pendingStored completedPayload)
        pendingStored.employee_id t0 ::
        sampleDb.transactions ∧
    (createExpenseTransaction (applyUpdate pendingStored completedPayload)
      pendingStored.employee_id t0).employee_id =
      sampleEmployeeId := by
  have h1 := (transaction_employee_id_source sampleDb noFaults completedPayload
    "manager-9" "exp-9" t0 "exp-1" pendingStored
    sampleEmployee rfl (by decide)).1 (by decide) (by decide)
  have h2 := (transaction_employee_id_source sampleDb noFaults completedPayload
    "manager-9" "exp-9" t0 "exp-1" pendingStored
    sampleEmployee rfl (by decide)).2 (by decide) (by decide) (by decide)
    (by decide)
  exact ⟨h1.1, h1.2, by decide, h2.1, by decide⟩

/-- C1: with a functioning transactions insert, a transaction row is
written exactly when a create succeeds with a completed payment status,
or an update succeeds while the body sets payment_status "completed" and
the pre-update stored status was different; every triggering case
inserts exactly one row with entity_type "expense" and entity_id the
expense id, and every other outcome — including a completed-to-completed
update — leaves the transactions table unchanged. -/
theorem transaction_written_exactly_on_trigger
    (db : Db) (f : Faults) (u : ExpensePayload) (uid newId now id : String)
    (htx : f.transactionInsertFails = false) :
    (∀ e, (createExpense db f u uid newId now).1 = .okExpense 201 e →
      (e.expense.payment_status = "completed" →
        (createExpense db f u uid newId now).2.transactions =
          createExpenseTransaction e.expense uid now :: db.transactions ∧
        (createExpenseTransaction e.expense uid now).entity_type = "expense" ∧
        (createExpenseTransaction e.expense uid now).entity_id = e.expense.id) ∧
      (e.expense.payment_status ≠ "completed" →
        (createExpense db f u uid newId now).2.transactions =
          db.transactions)) ∧
    ((∀ st e, (createExpense db f u uid newId now).1 ≠ .okExpense st e) →
      (createExpense db f u uid newId now).2.transactions = db.transactions) ∧
    (∀ ex, db.expenses.find? (fun e2 => e2.id == id) = some ex →
      ∀ e, (updateExpense db f id u now).1 = .okExpense 200 e →
      ((u.payment_status = some "completed" ∧
          ex.payment_status ≠ "completed") →
        (updateExpense db f id u now).2.transactions =
          createExpenseTransaction e.expense ex.employee_id now ::
            db.transactions ∧
        (createExpenseTransaction e.expense ex.employee_id now).entity_type =
          "expense" ∧
        (createExpenseTransaction e.expense ex.employee_id now).entity_id =
          e.expense.id) ∧
      (¬(u.payment_status = some "completed" ∧
          ex.payment_status ≠ "completed") →
        (updateExpense db f id u now).2.transactions = db.transactions)) ∧
    ((∀ st e, (updateExpense db f id u now).1 ≠ .okExpense st e) →
      (updateExpense db f id u now).2.transactions = db.transactions) := by
  refine ⟨?_, ?_, ?_, ?_⟩
  · intro e h
    by_cases hv : (validateExpense u).isValid = true
    · cases hemp : fetchEmployeeSingle db f
        ((defaultPaymentStatus u).employee_id.getD "") with
      | none =>
        rw [createExpense_empFail db f u uid newId now hv hemp] at h
        simp at h
      | some emp =>
        by_cases hcomp : (defaultPaymentStatus u).payment_status =
            some "completed"
        · have hL := createExpense_completed_ok db f u uid newId now emp hv
            hemp hcomp htx
          rw [hL] at h ⊢
          injection h with h1 h2
          subst h2
          constructor
          · intro _
            exact ⟨rfl, rfl, rfl⟩
          · intro hne
            exact absurd (by simp [insertExpense, hcomp]) hne
        · have hL := createExpense_notCompleted db f u uid newId now emp hv
            hemp hcomp
          rw [hL] at h ⊢
          injection h with h1 h2
          subst h2
          constructor
          · intro hcompleted
            obtain ⟨s, hs⟩ := defaultPaymentStatus_isSome u
            have hsc : s = "completed" := by
              simpa [insertExpense, hs] using hcompleted
            exact absurd (by rw [hs, hsc]) hcomp
          · intro _
            rfl
    · have hvf : (validateExpense u).isValid = false :=
        Bool.eq_false_iff.mpr hv
      rw [createExpense_invalid db f u uid newId now hvf] at h
      simp at h
  · intro hne
    by_cases hv : (validateExpense u).isValid = true
    · cases hemp : fetchEmployeeSingle db f
        ((defaultPaymentStatus u).employee_id.getD "") with
      | none =>
        rw [createExpense_empFail db f u uid newId now hv hemp]
      | some emp =>
        by_cases hcomp : (defaultPaymentStatus u).payment_status =
            some "completed"
        · have hL := createExpense_completed_ok db f u uid newId now emp hv
            hemp hcomp htx
          exact absurd (show (createExpense db f u uid newId now).1 =
            .okExpense 201
              ⟨insertExpense (defaultPaymentStatus u) newId now, some emp⟩ by
            rw [hL]) (hne 201 _)
        · have hL := createExpense_notCompleted db f u uid newId now emp hv
            hemp hcomp
          exact absurd (show (createExpense db f u uid newId now).1 =
            .okExpense 201
              ⟨insertExpense (defaultPaymentStatus u) newId now, some emp⟩ by
            rw [hL]) (hne 201 _)
    · have hvf : (validateExpense u).isValid = false :=
        Bool.eq_false_iff.mpr hv
      rw [createExpense_invalid db f u uid newId now hvf]
  · intro ex hex e h
    by_cases hv : (validateExpense u).isValid = true
    · cases hemp : fetchEmployeeSingle db f (applyUpdate ex u).employee_id with
      | none =>
        rw [updateExpense_empFail db f id u now ex hv hex hemp] at h
        simp at h
      | some emp =>
        by_cases htr : u.payment_status = some "completed" ∧
            ex.payment_status ≠ "completed"
        · have hL := updateExpense_trigger_ok db f id u now ex emp hv hex
            hemp htr.1 htr.2 htx
          rw [hL] at h ⊢
          injection h with h1 h2
          subst h2
          constructor
          · intro _
            exact ⟨rfl, rfl, rfl⟩
          · intro hn
            exact absurd htr hn
        · have hL := updateExpense_noTrigger db f id u now ex emp hv hex
            hemp htr
          rw [hL] at h ⊢
          injection h with h1 h2
          subst h2
          constructor
          · intro htr2
            exact absurd htr2 htr
          · intro _
            rfl
    · have hvf : (validateExpense u).isValid = false :=
        Bool.eq_false_iff.mpr hv
      rw [updateExpense_invalid db f id u now hvf] at h
      simp at h
  · intro hne
    by_cases hv : (validateExpense u).isValid = true
    · cases hex : db.expenses.find? (fun e2 => e2.id == id) with
      | none =>
        rw [updateExpense_notFound db f id u now hv hex]
      | some ex =>
        cases hemp : fetchEmployeeSingle db f (applyUpdate ex u).employee_id with
        | none =>
          rw [updateExpense_empFail db f id u now ex hv hex hemp]
        | some emp =>
          by_cases htr : u.payment_status = some "completed" ∧
              ex.payment_status ≠ "completed"
          · have hL := updateExpense_trigger_ok db f id u now ex emp hv hex
              hemp htr.1 htr.2 htx
            exact absurd (show (updateExpense db f id u now).1 =
              .okExpense 200 ⟨applyUpdate ex u, some emp⟩ by rw [hL])
              (hne 200 _)
          · have hL := updateExpense_noTrigger db f id u now ex emp hv hex
              hemp htr
            exact absurd (show (updateExpense db f id u now).1 =
              .okExpense 200 ⟨applyUpdate ex u, some emp⟩ by rw [hL])
              (hne 200 _)
    · have hvf : (validateExpense u).isValid = false :=
        Bool.eq_false_iff.mpr hv
      rw [updateExpense_invalid db f id u now hvf]

/-- Closed instances of the C1 theorem: a completed create inserts
exactly one transaction with the claimed entity fields, and a
completed-to-completed update inserts none. -/
theorem transaction_written_exactly_on_trigger_witness :
    ((createExpense sampleDb noFaults completedPayload "user-1" "exp-9"
        t0).2.transactions =
      createExpenseTransaction
        (insertExpense (defaultPaymentStatus completedPayload) "exp-9"
          t0) "user-1" t0 ::
        sampleDb.transactions ∧
     (createExpenseTransaction
       (insertExpense (defaultPaymentStatus completedPayload) "exp-9"
         t0) "user-1"
       t0).entity_type = "expense" ∧
     (createExpenseTransaction
       (insertExpense (defaultPaymentStatus completedPayload) "exp-9"
         t0) "user-1"
       t0).entity_id =
       (insertExpense (defaultPaymentStatus completedPayload) "exp-9"
         t0).id) ∧
    (updateExpense sampleDb noFaults "exp-2" completedPayload
      t0).2.transactions = sampleDb.transactions := by
  constructor
  · exact ((transaction_written_exactly_on_trigger sampleDb noFaults
      completedPayload "user-1" "exp-9" t0 "exp-2"
      rfl).1
      ⟨insertExpense (defaultPaymentStatus completedPayload) "exp-9"
        t0, some sampleEmployee⟩
      (by decide)).1 (by decide)
  · exact ((transaction_written_exactly_on_trigger sampleDb noFaults
      completedPayload "user-1" "exp-9" t0 "exp-2"
      rfl).2.2.1 completedStored (by decide)
      ⟨applyUpdate completedStored completedPayload, some sampleEmployee⟩
      (by decide)).2 (by decide)

/-- C6: for a request to any sub-route other than "summary", a missing
or invalid bearer token is answered 401 with no expense-store access,
while a GET of the "summary" sub-route is answered 200 without any
authentication check. -/
theorem auth_gate_and_summary_bypass
    (db : Db) (f : Faults) (resolve : String → Option String) (req : Request)
    (newId now : String) :
    (req.method ≠ "OPTIONS" →
     (pathParts req.pathname).head?.getD "" = "expenses" →
     ((pathParts req.pathname)[1]?).getD "" ≠ "summary" →
     getUserFromRequest resolve req.authHeader = none →
     serveExpenses db f resolve req newId now =
       ⟨.err 401 "Unauthorized", db, false⟩) ∧
    (req.method = "GET" →
     (pathParts req.pathname).head?.getD "" = "expenses" →
     ((pathParts req.pathname)[1]?).getD "" = "summary" →
     serveExpenses db f resolve req newId now =
       ⟨.okSummary 200, db, false⟩) := by
  constructor
  · intro hm hmain hsub hauth
    have hm2 : (req.method == "OPTIONS") = false := beq_eq_false_iff_ne.mpr hm
    simp [serveExpenses, hm2, hmain, hsub, hauth]
  · intro hm hmain hsub
    simp [serveExpenses, hm, hmain, hsub]

/-- Closed instances of the C6 theorem: without an Authorization header
the list route answers 401 touching no data, and the summary route
answers 200 with no token at all. -/
theorem auth_gate_and_summary_bypass_witness :
    serveExpenses sampleDb noFaults sampleResolve
      { method := "GET", pathname := "/functions/v1/expenses",
        authHeader := none, body := none, categoryParam := none,
        startDateParam := none, endDateParam := none,
        paymentStatusParam := none } "n1" t0 =
      ⟨.err 401 "Unauthorized", sampleDb, false⟩ ∧
    serveExpenses sampleDb noFaults sampleResolve
      { method := "GET", pathname := "/functions/v1/expenses/summary",
        authHeader := none, body := none, categoryParam := none,
        startDateParam := none, endDateParam := none,
        paymentStatusParam := none } "n1" t0 =
      ⟨.okSummary 200, sampleDb, false⟩ := by
  constructor
  · exact (auth_gate_and_summary_bypass sampleDb noFaults sampleResolve
      { method := "GET", pathname := "/functions/v1/expenses",
        authHeader := none, body := none, categoryParam := none,
        startDateParam := none, endDateParam := none,
        paymentStatusParam := none } "n1" t0).1
      (by decide) (by decide) (by decide) (by decide)
  · exact (auth_gate_and_summary_bypass sampleDb noFaults sampleResolve
      { method := "GET", pathname := "/functions/v1/expenses/summary",
        authHeader := none, body := none, categoryParam := none,
        startDateParam := none, endDateParam := none,
        paymentStatusParam := none } "n1" t0).2
      rfl (by decide) (by decide)

end AraratOil
